import Mathlib

/-!
# USD/BRL quote service and client

A shallow embedding of the two Go programs of the repository

* `server/main.go`: `handleUSDBRL`, `BuscaCotacao`, `PersistCotacao`;
* `client/main.go`: `main`, `BuscaCotacao`.

The programs talk to three collaborators that are not part of the repository:
an HTTP peer, a SQL database and a file.  Each collaborator is an explicit
argument of the embedded function (what the peer answers and how long it takes,
the contents of the store, the contents of the file), and every effect the Go
code has on it is part of the function's result.  Wall-clock time is a natural
number of nanoseconds, the unit of Go's `time.Duration`.
-/

set_option autoImplicit false

/-! ## Time and contexts -/

/-- Go's `time.Millisecond`: a `time.Duration` is a number of nanoseconds. -/
def Millisecond : Nat := 1000000

/-- A `context.Context` derived from `context.Background()` by `WithTimeout`:
all that matters of it is the instant at which it expires. -/
structure Context where
  deadline : Nat
deriving DecidableEq, Repr

/-- Go's `context.WithTimeout(context.Background(), d)` called at instant `now`. -/
def WithTimeout (now : Nat) (d : Nat) : Context :=
  { deadline := now + d }

/-- Whether `ctx.Err() == context.DeadlineExceeded` holds at instant `now`. -/
def Context.expired (ctx : Context) (now : Nat) : Bool :=
  decide (ctx.deadline ≤ now)

/-! ## Errors and log lines -/

/-- The Go `error` values the two programs can see, by origin. -/
inductive GoError where
  /-- The context expired while a call was in flight. -/
  | deadlineExceeded
  /-- The HTTP round trip failed below HTTP (DNS, refused connection, reset). -/
  | transport (detail : String)
  /-- The client's `fmt.Errorf("servidor retornou status: %s", resp.Status)`. -/
  | status (code : Nat)
  /-- Reading the response body failed. -/
  | read (detail : String)
  /-- The body is not a JSON text (`*json.SyntaxError`, `io.EOF`). -/
  | malformed (detail : String)
  /-- A JSON value of kind `value` met a Go target of another type
  (`*json.UnmarshalTypeError`). -/
  | unmarshalType (value : String) (field : String)
  /-- An error reported by `database/sql` or the driver. -/
  | sql (detail : String)
  /-- An error reported by `os.OpenFile` or `(*os.File).Write`. -/
  | file (detail : String)
deriving DecidableEq, Repr

/-- One call of `log.Println`: the fixed text and the value printed after it. -/
structure LogLine where
  text : String
  err : Option GoError := none
  arg : Option String := none
deriving DecidableEq, Repr

/-! ## JSON values and the quote record -/

/-- A JSON value as `encoding/json` scans it.  Object members keep the order
and the repetitions of the text. -/
inductive JSON where
  | null
  | bool (b : Bool)
  | number (literal : String)
  | string (s : String)
  | array (elems : List JSON)
  | object (members : List (String × JSON))

/-- The name `encoding/json` gives the kind of a value in an
`UnmarshalTypeError`. -/
def JSON.kind : JSON → String
  | .null => "null"
  | .bool _ => "bool"
  | .number _ => "number"
  | .string _ => "string"
  | .array _ => "array"
  | .object _ => "object"

/-- The anonymous struct type of the field `USDBRL` (the same in both
programs): eleven strings. -/
structure Quote where
  Code : String
  Codein : String
  Name : String
  High : String
  Low : String
  VarBid : String
  PctChange : String
  Bid : String
  Ask : String
  Timestamp : String
  CreateDate : String
deriving DecidableEq, Repr

/-- The struct `CotacaoAPIResponse` (declared identically in both programs). -/
structure CotacaoAPIResponse where
  USDBRL : Quote
deriving DecidableEq, Repr

/-- The zero value of the anonymous struct: every string empty. -/
def Quote.zero : Quote :=
  { Code := "", Codein := "", Name := "", High := "", Low := "", VarBid := "",
    PctChange := "", Bid := "", Ask := "", Timestamp := "", CreateDate := "" }

/-- The zero value a `var x CotacaoAPIResponse` declaration gives. -/
def CotacaoAPIResponse.zero : CotacaoAPIResponse :=
  { USDBRL := Quote.zero }

/-- The `json:"..."` tags of the eleven fields, in declaration order. -/
def quoteTags : List String :=
  ["code", "codein", "name", "high", "low", "varBid", "pctChange", "bid", "ask",
   "timestamp", "create_date"]

/-- The `json:"..."` tag of the only field of `CotacaoAPIResponse`. -/
def envelopeTags : List String := ["USDBRL"]

/-- The field of a quote that carries the tag `tag`. -/
def Quote.get (q : Quote) (tag : String) : String :=
  if tag = "code" then q.Code
  else if tag = "codein" then q.Codein
  else if tag = "name" then q.Name
  else if tag = "high" then q.High
  else if tag = "low" then q.Low
  else if tag = "varBid" then q.VarBid
  else if tag = "pctChange" then q.PctChange
  else if tag = "bid" then q.Bid
  else if tag = "ask" then q.Ask
  else if tag = "timestamp" then q.Timestamp
  else if tag = "create_date" then q.CreateDate
  else ""

/-- Assignment to the field of a quote that carries the tag `tag`. -/
def Quote.set (q : Quote) (tag : String) (v : String) : Quote :=
  if tag = "code" then { q with Code := v }
  else if tag = "codein" then { q with Codein := v }
  else if tag = "name" then { q with Name := v }
  else if tag = "high" then { q with High := v }
  else if tag = "low" then { q with Low := v }
  else if tag = "varBid" then { q with VarBid := v }
  else if tag = "pctChange" then { q with PctChange := v }
  else if tag = "bid" then { q with Bid := v }
  else if tag = "ask" then { q with Ask := v }
  else if tag = "timestamp" then { q with Timestamp := v }
  else if tag = "create_date" then { q with CreateDate := v }
  else q

/-! ## Decoding with `encoding/json`

`json.Unmarshal` and `(*json.Decoder).Decode` fill a struct from a JSON object
member by member: a member whose key names no field is skipped, a field no
member names keeps the value it had, `null` leaves a string or a struct
untouched, and a value of the wrong kind records an `UnmarshalTypeError` (the
first one is the error returned) while decoding goes on.  A key names a field
when it equals the field's tag, or else when the two are equal under Unicode
simple case folding.
-/

/-- Case folding of one character, as far as it can reach an ASCII letter: the
library folds a rune to the least rune of its simple-folding orbit, and the
only non-ASCII runes whose orbit holds an ASCII letter are the Kelvin sign
(U+212A, with K) and the long s (U+017F, with S).  Every tag of this program is
ASCII, so folding the other runes to themselves matches the same keys. -/
def foldRune (c : Char) : Char :=
  if 'a'.toNat ≤ c.toNat ∧ c.toNat ≤ 'z'.toNat then Char.ofNat (c.toNat - 32)
  else if c.toNat = 0x212A then 'K'
  else if c.toNat = 0x17F then 'S'
  else c

/-- The library's `foldName`: a name with every character folded. -/
def foldName (s : String) : List Char :=
  s.data.map foldRune

/-- The field a key names: the tag equal to it, or else the first tag equal to
it after folding. -/
def findField (tags : List String) (key : String) : Option String :=
  match tags.find? (fun t => decide (t = key)) with
  | some t => some t
  | none => tags.find? (fun t => decide (foldName t = foldName key))

/-- The library's `saveError`: only the first error is kept. -/
def saveError (saved : Option GoError) (e : GoError) : Option GoError :=
  match saved with
  | some old => some old
  | none => some e

/-- Decoding one member value into the string field tagged `tag`. -/
def storeString (q : Quote) (tag : String) (v : JSON) (saved : Option GoError) :
    Quote × Option GoError :=
  match v with
  | .string s => (q.set tag s, saved)
  | .null => (q, saved)
  | other => (q, saveError saved (.unmarshalType other.kind tag))

/-- Decoding one member of the inner object into the quote. -/
def quoteMember (st : Quote × Option GoError) (m : String × JSON) :
    Quote × Option GoError :=
  match findField quoteTags m.1 with
  | none => st
  | some tag => storeString st.1 tag m.2 st.2

/-- Decoding the members of the inner object, in the order of the text. -/
def decodeQuote (members : List (String × JSON)) (st : Quote × Option GoError) :
    Quote × Option GoError :=
  members.foldl quoteMember st

/-- Decoding one member of the outer object into the response struct. -/
def envelopeMember (st : CotacaoAPIResponse × Option GoError) (m : String × JSON) :
    CotacaoAPIResponse × Option GoError :=
  match findField envelopeTags m.1 with
  | none => st
  | some tag =>
    match m.2 with
    | .object members =>
      let r := decodeQuote members (st.1.USDBRL, st.2)
      ({ USDBRL := r.1 }, r.2)
    | .null => st
    | other => (st.1, saveError st.2 (.unmarshalType other.kind tag))

/-- Decoding a JSON value into a freshly declared `CotacaoAPIResponse`, as
`json.Unmarshal(body, &cotacao)` and `Decode(&apiResponse)` do once the text is
scanned. -/
def unmarshal (v : JSON) : Except GoError CotacaoAPIResponse :=
  match v with
  | .object members =>
    match members.foldl envelopeMember (CotacaoAPIResponse.zero, none) with
    | (_, some e) => .error e
    | (c, none) => .ok c
  | .null => .ok CotacaoAPIResponse.zero
  | other => .error (.unmarshalType other.kind "CotacaoAPIResponse")

/-- The value `encoding/json` writes for the anonymous struct: an object with
the eleven tags as keys, in declaration order, no field omitted. -/
def marshalQuote (q : Quote) : JSON :=
  .object (quoteTags.map (fun t => (t, JSON.string (q.get t))))

/-! ## HTTP -/

/-- The payload of an HTTP response, as the JSON reader of the receiving
program sees it. -/
inductive Body where
  /-- Reading the payload fails. -/
  | unreadable (detail : String)
  /-- Bytes that are not a JSON text, such as a plain-text error page. -/
  | raw (bytes : String)
  /-- Bytes that scan as the JSON value `v`. -/
  | json (v : JSON)

/-- What the peer of an outbound `client.Do(req)` does. -/
inductive RoundTrip where
  /-- The exchange fails below HTTP after `latency`. -/
  | failure (latency : Nat) (detail : String)
  /-- The peer answers with `status` and `body` after `latency`. -/
  | response (latency : Nat) (status : Nat) (body : Body)

/-- Go's `http.StatusOK`. -/
def StatusOK : Nat := 200

/-- Go's `http.StatusInternalServerError`. -/
def StatusInternalServerError : Nat := 500

/-- The outcome of `client.Do(req)` for a request bound to `ctx`, started at
`now`: the response when the peer answers before the context expires, and the
instant at which the call returns. -/
def Do (ctx : Context) (now : Nat) (peer : RoundTrip) :
    Except GoError (Nat × Body) × Nat :=
  match peer with
  | .failure latency detail =>
    if now + latency < ctx.deadline then (.error (.transport detail), now + latency)
    else (.error .deadlineExceeded, max now ctx.deadline)
  | .response latency status body =>
    if now + latency < ctx.deadline then (.ok (status, body), now + latency)
    else (.error .deadlineExceeded, max now ctx.deadline)

/-- Reading and decoding a response body into a fresh `CotacaoAPIResponse`. -/
def decodeBody (body : Body) : Except GoError CotacaoAPIResponse :=
  match body with
  | .unreadable detail => .error (.read detail)
  | .raw _ => .error (.malformed "invalid character")
  | .json v => unmarshal v

/-! ## The store: the table `cotacoes` of `./cotacoes.db` -/

/-- One row of the table: the generated `id` and the text of each column, by
column name, in the order of the table's columns. -/
structure Row where
  id : Nat
  cells : List (String × String)
deriving DecidableEq, Repr

/-- The table once created: the largest `id` handed out so far (the
`AUTOINCREMENT` counter) and the rows, oldest first. -/
structure Table where
  seq : Nat
  rows : List Row
deriving DecidableEq, Repr

/-- The state of the database as far as the program can tell: the table
`cotacoes` is absent, or present with its rows. -/
abbrev Store := Option Table

/-- The two statements the program sends, both on the table `cotacoes`. -/
inductive Stmt where
  /-- The statement `CREATE TABLE IF NOT EXISTS cotacoes (id ..., c TEXT NOT NULL, ...)`
  for the listed columns `c`. -/
  | createTableIfNotExists (columns : List String)
  /-- The statement `INSERT INTO cotacoes (columns) VALUES (?, ...)` with the
  bound arguments. -/
  | insertInto (columns : List String) (args : List String)
deriving DecidableEq, Repr

/-- The `TEXT NOT NULL` columns of the `CREATE TABLE` statement, in order. -/
def cotacoesColumns : List String :=
  ["code", "codein", "name", "high", "low", "varBid", "pctChange", "bid", "ask",
   "timestamp", "create_date"]

/-- The value an `INSERT` gives each column of the table: the argument bound to
the placeholder at the position of the column's name.  There is none when the
counts differ, when a listed column is not a column of the table, or when a
`NOT NULL` column gets no value. -/
def bindColumns (columns : List String) (args : List String) :
    Option (List (String × String)) :=
  if columns.length = args.length ∧ columns.all (fun c => cotacoesColumns.contains c) then
    cotacoesColumns.mapM (fun c => ((columns.zip args).lookup c).map (fun v => (c, v)))
  else none

/-- The `id` an `AUTOINCREMENT` key gives the next row: one more than the
largest ever used. -/
def Table.nextId (t : Table) : Nat :=
  max t.seq (t.rows.foldl (fun m r => max m r.id) 0) + 1

/-- The effect of one statement on the store. -/
def exec (db : Store) (stmt : Stmt) : Except GoError Store :=
  match stmt with
  | .createTableIfNotExists _ =>
    match db with
    | none => .ok (some { seq := 0, rows := [] })
    | some t => .ok (some t)
  | .insertInto columns args =>
    match db with
    | none => .error (.sql "no such table: cotacoes")
    | some t =>
      match bindColumns columns args with
      | none => .error (.sql "constraint failed")
      | some cells =>
        .ok (some { seq := t.nextId, rows := t.rows ++ [{ id := t.nextId, cells := cells }] })

/-- What the database does with one statement: the time it needs, the failure
it reports, if any, for a reason of its own (locked file, full disk), and
whether the driver's interrupt stops the statement when the context expires
while it runs.  The interrupt is a race: when it comes too late the statement
runs to its end and its own result is what the call returns. -/
structure DBStep where
  cost : Nat
  fault : Option String := none
  interrupts : Bool := true
deriving DecidableEq, Repr

/-- The outcome of `db.ExecContext(ctx, stmt, args...)` started at `now`.  A
context that has already expired is refused before the statement runs.  A
statement that would end at or after the deadline is cut off at the deadline
when the interrupt takes effect, and then leaves the store as it was.  In every
other case the statement runs to its end and the call returns its own result.
The last component is the instant at which the call returns. -/
def ExecContext (ctx : Context) (now : Nat) (step : DBStep) (db : Store) (stmt : Stmt) :
    Option GoError × Store × Nat :=
  if ctx.deadline ≤ now then (some .deadlineExceeded, db, now)
  else if ctx.deadline ≤ now + step.cost ∧ step.interrupts = true then
    (some .deadlineExceeded, db, ctx.deadline)
  else
    match step.fault with
    | some detail => (some (.sql detail), db, now + step.cost)
    | none =>
      match exec db stmt with
      | .error e => (some e, db, now + step.cost)
      | .ok db1 => (none, db1, now + step.cost)

/-- The database as one call of `PersistCotacao` meets it. -/
structure DBEnv where
  /-- The failure of `sql.Open`, if any. -/
  openFault : Option String := none
  /-- Time from the caller's creation of the context to the first statement. -/
  openCost : Nat := 0
  /-- The schema statement. -/
  create : DBStep
  /-- The insert statement. -/
  insert : DBStep
deriving DecidableEq, Repr

namespace Server

/-- The statement held by the variable `createTable`. -/
def createTable : Stmt :=
  .createTableIfNotExists cotacoesColumns

/-- The statement held by the variable `insert`, bound to the eleven arguments
of the call, in the order the call lists them. -/
def insert (cotacao : CotacaoAPIResponse) : Stmt :=
  .insertInto
    ["code", "codein", "name", "high", "low", "varBid", "pctChange", "bid", "ask",
     "timestamp", "create_date"]
    [cotacao.USDBRL.Code, cotacao.USDBRL.Codein, cotacao.USDBRL.Name,
     cotacao.USDBRL.High, cotacao.USDBRL.Low, cotacao.USDBRL.VarBid,
     cotacao.USDBRL.PctChange, cotacao.USDBRL.Bid, cotacao.USDBRL.Ask,
     cotacao.USDBRL.Timestamp, cotacao.USDBRL.CreateDate]

/-- The result of the server's `BuscaCotacao`: the returned pair (the pointer
is non-nil exactly when the error is nil), the instant of return and the lines
logged. -/
structure Fetched where
  result : Except GoError CotacaoAPIResponse
  now : Nat
  log : List LogLine

/-- The server's `BuscaCotacao(ctx)`, called at `now` against an upstream API
that behaves as `upstream`.  The request is built from constants, so
`http.NewRequestWithContext` does not fail.  The status code of the response is
not looked at. -/
def BuscaCotacao (ctx : Context) (now : Nat) (upstream : RoundTrip) : Fetched :=
  match Do ctx now upstream with
  | (.error err, t) =>
    { result := .error err, now := t,
      log := if ctx.expired t then [{ text := "Timeout ao chamar a API de cotação do dólar" }]
             else [] }
  | (.ok (_, body), t) =>
    match decodeBody body with
    | .error err => { result := .error err, now := t, log := [] }
    | .ok apiResponse => { result := .ok apiResponse, now := t, log := [] }

/-- The result of `PersistCotacao`: the returned error (`none` for nil), the
store afterwards, the instant of return, the statements handed to
`db.ExecContext` in order, and the lines logged. -/
structure Persisted where
  err : Option GoError
  db : Store
  now : Nat
  stmts : List Stmt
  log : List LogLine
deriving DecidableEq, Repr

/-- The function `PersistCotacao(ctx, cotacao)`, called at `now` on the store
`db`.  Both statements run under the one context the caller passes in. -/
def PersistCotacao (ctx : Context) (cotacao : CotacaoAPIResponse) (now : Nat)
    (env : DBEnv) (db : Store) : Persisted :=
  match env.openFault with
  | some detail => { err := some (.sql detail), db := db, now := now, stmts := [], log := [] }
  | none =>
    let t0 := now + env.openCost
    match ExecContext ctx t0 env.create db createTable with
    | (some err, db1, t1) =>
      { err := some err, db := db1, now := t1, stmts := [createTable],
        log := if ctx.expired t1 then
                 [{ text := "Timeout ao criar a tabela no banco de dados" }]
               else [] }
    | (none, db1, t1) =>
      match ExecContext ctx t1 env.insert db1 (insert cotacao) with
      | (some err, db2, t2) =>
        { err := some err, db := db2, now := t2, stmts := [createTable, insert cotacao],
          log := if ctx.expired t2 then
                   [{ text := "Timeout ao inserir a cotação no banco de dados" }]
                 else [] }
      | (none, db2, t2) =>
        { err := none, db := db2, now := t2, stmts := [createTable, insert cotacao],
          log := [] }

/-- What `handleUSDBRL` writes to its `http.ResponseWriter`. -/
structure Response where
  status : Nat
  contentType : String
  body : Body

/-- Go's `http.Error(w, msg, code)`: a plain-text response whose body is the
message and a newline. -/
def httpError (msg : String) (code : Nat) : Response :=
  { status := code, contentType := "text/plain; charset=utf-8", body := .raw (msg ++ "\n") }

/-- The world one request meets: the upstream API and the database. -/
structure Env where
  upstream : RoundTrip
  dbenv : DBEnv

/-- Everything one run of `handleUSDBRL` does: the responses written, the
number of calls of `PersistCotacao`, the statements executed, the store
afterwards and the lines logged. -/
structure Handled where
  responses : List Response
  persistCalls : Nat
  stmts : List Stmt
  db : Store
  log : List LogLine

/-- The handler `handleUSDBRL(w, r)`, entered at `now` with the store `db`.  The
incoming request `r` is not read. -/
def handleUSDBRL (env : Env) (now : Nat) (db : Store) : Handled :=
  let ctxApi := WithTimeout now (200 * Millisecond)
  let fetched := BuscaCotacao ctxApi now env.upstream
  match fetched.result with
  | .error err =>
    { responses := [httpError "Erro ao obter cotação" StatusInternalServerError],
      persistCalls := 0, stmts := [], db := db,
      log := fetched.log ++ [{ text := "Erro ao obter cotação:", err := some err }] }
  | .ok cotacao =>
    let ctxDB := WithTimeout fetched.now (10 * Millisecond)
    let persisted := PersistCotacao ctxDB cotacao fetched.now env.dbenv db
    let log := fetched.log ++ [{ text := "Cotação do dólar:", arg := some cotacao.USDBRL.Bid }]
      ++ persisted.log
    match persisted.err with
    | some err =>
      { responses := [httpError "Erro ao salvar cotação" StatusInternalServerError],
        persistCalls := 1, stmts := persisted.stmts, db := persisted.db,
        log := log ++ [{ text := "Erro ao salvar cotação:", err := some err }] }
    | none =>
      { responses := [{ status := StatusOK, contentType := "application/json",
                        body := .json (marshalQuote cotacao.USDBRL) }],
        persistCalls := 1, stmts := persisted.stmts, db := persisted.db, log := log }

end Server

/-! ## The client -/

namespace Client

/-- The result of the client's `BuscaCotacao`. -/
structure Fetched where
  result : Except GoError CotacaoAPIResponse
  now : Nat
  log : List LogLine

/-- The client's `BuscaCotacao(ctx)`, called at `now` against a service that
behaves as `service`.  A response whose status is not 200 is an error; the body
of a 200 response is read whole and decoded. -/
def BuscaCotacao (ctx : Context) (now : Nat) (service : RoundTrip) : Fetched :=
  match Do ctx now service with
  | (.error err, t) =>
    { result := .error err, now := t,
      log := if ctx.expired t then [{ text := "Timeout ao aguardar resposta do servidor" }]
             else [] }
  | (.ok (status, body), t) =>
    if status ≠ StatusOK then { result := .error (.status status), now := t, log := [] }
    else
      match decodeBody body with
      | .error err => { result := .error err, now := t, log := [] }
      | .ok cotacao => { result := .ok cotacao, now := t, log := [] }

/-- A call the client makes on the file system. -/
inductive FileOp where
  /-- The call `os.OpenFile(path, O_CREATE|O_WRONLY|O_APPEND, 0666)`. -/
  | openAppend (path : String)
  /-- The call `f.Write(data)`. -/
  | write (data : String)
  /-- The deferred `f.Close()`. -/
  | close
deriving DecidableEq, Repr

/-- The world one run of the client meets: the service, and what the file
system does with the open and the write (a failed write may still have put the
first `n` characters of the data in the file). -/
structure Env where
  service : RoundTrip
  openFault : Option String := none
  writeFault : Option (Nat × String) := none

/-- Everything one run of `main` does: the contents of `cotacao.txt` afterwards
(`none` while the file does not exist), the calls made on the file system, the
lines logged and the exit status of the process. -/
structure Run where
  file : Option String
  ops : List FileOp
  log : List LogLine
  exitCode : Nat
deriving DecidableEq, Repr

/-- Go's `fmt.Sprintf("Dólar: %s\n", bid)`. -/
def conteudo (bid : String) : String :=
  "Dólar: " ++ bid ++ "\n"

/-- The client's `main()`, started at `now` with `cotacao.txt` holding `file`.
Every path leaves `main` by a plain `return`, so the process exits with status
0. -/
def main (env : Env) (now : Nat) (file : Option String) : Run :=
  let ctx := WithTimeout now (300 * Millisecond)
  let fetched := BuscaCotacao ctx now env.service
  match fetched.result with
  | .error err =>
    { file := file, ops := [], exitCode := 0,
      log := fetched.log ++ [{ text := "Erro ao obter cotação do server:", err := some err }] }
  | .ok cotacao =>
    let conteudo := conteudo cotacao.USDBRL.Bid
    match env.openFault with
    | some detail =>
      { file := file, ops := [.openAppend "cotacao.txt"], exitCode := 0,
        log := fetched.log ++
          [{ text := "Erro ao abrir arquivo de cotações:", err := some (.file detail) }] }
    | none =>
      let opened := file.getD ""
      match env.writeFault with
      | some (n, detail) =>
        { file := some (opened ++ conteudo.take n),
          ops := [.openAppend "cotacao.txt", .write conteudo, .close], exitCode := 0,
          log := fetched.log ++
            [{ text := "Erro ao escrever cotação no arquivo:", err := some (.file detail) }] }
      | none =>
        { file := some (opened ++ conteudo),
          ops := [.openAppend "cotacao.txt", .write conteudo, .close], exitCode := 0,
          log := fetched.log ++
            [{ text := "Cotação salva com sucesso no arquivo cotacao.txt" }] }

end Client

/-! ## The two steps of one request -/

/-- The fetch step of a request entered at `now`: the handler's call
`BuscaCotacao(ctxApi)`. -/
def Server.fetchStep (env : Server.Env) (now : Nat) : Server.Fetched :=
  Server.BuscaCotacao (WithTimeout now (200 * Millisecond)) now env.upstream

/-- The persist step of a request entered at `now`: the handler's call
`PersistCotacao(ctxDB, *cotacao)`, made when the fetch step has returned. -/
def Server.persistStep (env : Server.Env) (now : Nat) (db : Store)
    (cotacao : CotacaoAPIResponse) : Server.Persisted :=
  Server.PersistCotacao (WithTimeout (Server.fetchStep env now).now (10 * Millisecond)) cotacao
    (Server.fetchStep env now).now env.dbenv db

/-- The fetch step of a client run started at `now`: the call
`BuscaCotacao(ctx)` of `main`. -/
def Client.fetchStep (env : Client.Env) (now : Nat) : Client.Fetched :=
  Client.BuscaCotacao (WithTimeout now (300 * Millisecond)) now env.service

/-! ## Reading the store -/

/-- The rows of the store: none while the table is absent. -/
def storeRows (db : Store) : List Row :=
  match db with
  | none => []
  | some t => t.rows

/-- The `id` the next insert gives its row, on a store whose table is created
on demand. -/
def storeNextId (db : Store) : Nat :=
  match db with
  | none => 1
  | some t => t.nextId

/-- The cells of the row that records a quote: one per column, in column
order. -/
def quoteCells (q : Quote) : List (String × String) :=
  [("code", q.Code), ("codein", q.Codein), ("name", q.Name), ("high", q.High),
   ("low", q.Low), ("varBid", q.VarBid), ("pctChange", q.PctChange), ("bid", q.Bid),
   ("ask", q.Ask), ("timestamp", q.Timestamp), ("create_date", q.CreateDate)]

/-! ## Shapes of an upstream body -/

/-- A member of the inner object that decoding takes without an error: its key
names no field, or its value is a string or `null`. -/
def quoteMemberOk (f : String × JSON) : Bool :=
  match findField quoteTags f.1, f.2 with
  | none, _ => true
  | some _, .string _ => true
  | some _, .null => true
  | some _, _ => false

/-- A member of the outer object that decoding takes without an error: its key
does not name `USDBRL`, or its value is `null` or an object whose members are
all taken without an error. -/
def envelopeMemberOk (m : String × JSON) : Bool :=
  match findField envelopeTags m.1, m.2 with
  | none, _ => true
  | some _, .object members => members.all quoteMemberOk
  | some _, .null => true
  | some _, _ => false

/-- Whether a member of the outer object is a `USDBRL` object with a member
whose key names the field tagged `tag`. -/
def namesField (tag : String) (m : String × JSON) : Bool :=
  match findField envelopeTags m.1, m.2 with
  | some _, .object members => members.any (fun f => findField quoteTags f.1 == some tag)
  | _, _ => false

/-! ## Worked inputs -/

/-- A quote as the upstream API reports one. -/
def sampleQuote : Quote :=
  { Code := "USD", Codein := "BRL", Name := "Dólar Americano/Real Brasileiro",
    High := "5.10", Low := "4.90", VarBid := "0.01", PctChange := "0.2",
    Bid := "5.00", Ask := "5.01", Timestamp := "1700000000",
    CreateDate := "2023-11-14 12:00:00" }

/-- The upstream body for `sampleQuote`: the pair wrapped under `USDBRL`. -/
def sampleUpstreamBody : Body :=
  .json (.object [("USDBRL", marshalQuote sampleQuote)])

/-- A database that answers each statement in one millisecond. -/
def fastDB : DBEnv :=
  { create := { cost := Millisecond }, insert := { cost := Millisecond } }

/-- A request served by a healthy upstream API and a fast database. -/
def sampleEnv : Server.Env :=
  { upstream := .response (50 * Millisecond) 200 sampleUpstreamBody, dbenv := fastDB }

/-- A second quote, different from `sampleQuote` in every rate. -/
def otherQuote : Quote :=
  { Code := "USD", Codein := "BRL", Name := "Dólar Americano/Real Brasileiro",
    High := "6.30", Low := "6.10", VarBid := "-0.05", PctChange := "-0.8",
    Bid := "6.20", Ask := "6.21", Timestamp := "1800000000",
    CreateDate := "2027-01-15 09:30:00" }

/-- A request whose quote is `sampleQuote` and whose insert the database
refuses. -/
def diskFullEnv : Server.Env :=
  { upstream := .response (50 * Millisecond) 200 sampleUpstreamBody,
    dbenv := { create := { cost := Millisecond },
               insert := { cost := Millisecond, fault := some "database or disk is full" } } }

/-- A request whose quote is `otherQuote` and whose schema statement takes 20ms. -/
def slowSchemaEnv : Server.Env :=
  { upstream := .response (80 * Millisecond) 200
      (.json (.object [("USDBRL", marshalQuote otherQuote)])),
    dbenv := { create := { cost := 20 * Millisecond }, insert := { cost := Millisecond } } }

/-! ## Properties of the handler -/

/-- C1.  Whatever the fetch and the persist step do, `handleUSDBRL` writes
exactly one response, its status is 200 or 500, and it is 200 exactly when
`BuscaCotacao` returned a quote and `PersistCotacao`, called on that quote,
returned no error. -/
theorem handleUSDBRL_single_response (env : Server.Env) (now : Nat) (db : Store) :
    ∃ r : Server.Response,
      (Server.handleUSDBRL env now db).responses = [r] ∧
      (r.status = 200 ∨ r.status = 500) ∧
      (r.status = 200 ↔
        ∃ cotacao,
          (Server.fetchStep env now).result = .ok cotacao ∧
          (Server.persistStep env now db cotacao).err = none) := by
  unfold Server.handleUSDBRL Server.persistStep Server.fetchStep
  cases hf : (Server.BuscaCotacao (WithTimeout now (200 * Millisecond)) now env.upstream).result with
  | error err =>
    refine ⟨Server.httpError "Erro ao obter cotação" StatusInternalServerError, ?_, ?_, ?_⟩
    · simp [hf]
    · right; rfl
    · simp [Server.httpError, StatusInternalServerError]
  | ok cotacao =>
    cases hp : (Server.PersistCotacao
        (WithTimeout
          (Server.BuscaCotacao (WithTimeout now (200 * Millisecond)) now env.upstream).now
          (10 * Millisecond))
        cotacao
        (Server.BuscaCotacao (WithTimeout now (200 * Millisecond)) now env.upstream).now
        env.dbenv db).err with
    | some err =>
      refine ⟨Server.httpError "Erro ao salvar cotação" StatusInternalServerError, ?_, ?_, ?_⟩
      · simp [hf, hp]
      · right; rfl
      · simp [Server.httpError, StatusInternalServerError, hp]
    | none =>
      refine ⟨{ status := StatusOK, contentType := "application/json",
                body := .json (marshalQuote cotacao.USDBRL) }, ?_, ?_, ?_⟩
      · simp [hf, hp]
      · left; rfl
      · simp [StatusOK, hp]

/-- C2.  When the server's `BuscaCotacao` returns an error, `handleUSDBRL`
answers with the single status 500, `PersistCotacao` is not called, no statement
reaches the database and the store is as it was. -/
theorem handleUSDBRL_fetch_error_no_persist (env : Server.Env) (now : Nat) (db : Store)
    (err : GoError) (hfetch : (Server.fetchStep env now).result = .error err) :
    (Server.handleUSDBRL env now db).responses.map (fun r => r.status) = [500] ∧
    (Server.handleUSDBRL env now db).persistCalls = 0 ∧
    (Server.handleUSDBRL env now db).stmts = [] ∧
    (Server.handleUSDBRL env now db).db = db := by
  unfold Server.fetchStep at hfetch
  simp [Server.handleUSDBRL, hfetch, Server.httpError, StatusInternalServerError]

/-- C2, at the three ways the fetch can fail, with a table that already holds
a row: an upstream API that takes 250ms to answer (the deadline is 200ms), a
refused connection, and a body that is not JSON. -/
theorem handleUSDBRL_fetch_error_no_persist_witness :
    (Server.fetchStep
        { upstream := .response (250 * Millisecond) 200 sampleUpstreamBody, dbenv := fastDB }
        0).result = .error .deadlineExceeded ∧
    ((Server.handleUSDBRL
        { upstream := .response (250 * Millisecond) 200 sampleUpstreamBody, dbenv := fastDB }
        0 (some { seq := 1, rows := [{ id := 1, cells := [] }] })).responses.map
          (fun r => r.status) = [500] ∧
     (Server.handleUSDBRL
        { upstream := .response (250 * Millisecond) 200 sampleUpstreamBody, dbenv := fastDB }
        0 (some { seq := 1, rows := [{ id := 1, cells := [] }] })).persistCalls = 0 ∧
     (Server.handleUSDBRL
        { upstream := .response (250 * Millisecond) 200 sampleUpstreamBody, dbenv := fastDB }
        0 (some { seq := 1, rows := [{ id := 1, cells := [] }] })).stmts = [] ∧
     (Server.handleUSDBRL
        { upstream := .response (250 * Millisecond) 200 sampleUpstreamBody, dbenv := fastDB }
        0 (some { seq := 1, rows := [{ id := 1, cells := [] }] })).db
       = some { seq := 1, rows := [{ id := 1, cells := [] }] }) ∧
    (Server.handleUSDBRL
        { upstream := .failure Millisecond "connection refused", dbenv := fastDB }
        0 none).persistCalls = 0 ∧
    (Server.handleUSDBRL
        { upstream := .response (50 * Millisecond) 200 (.raw "<html>"), dbenv := fastDB }
        0 none).persistCalls = 0 :=
  ⟨rfl,
   handleUSDBRL_fetch_error_no_persist
      { upstream := .response (250 * Millisecond) 200 sampleUpstreamBody, dbenv := fastDB }
      0 (some { seq := 1, rows := [{ id := 1, cells := [] }] }) .deadlineExceeded rfl,
   (handleUSDBRL_fetch_error_no_persist
      { upstream := .failure Millisecond "connection refused", dbenv := fastDB }
      0 none (.transport "connection refused") rfl).2.1,
   (handleUSDBRL_fetch_error_no_persist
      { upstream := .response (50 * Millisecond) 200 (.raw "<html>"), dbenv := fastDB }
      0 none (.malformed "invalid character") rfl).2.1⟩

/-- C3.  Two runs of `handleUSDBRL` that both answer 500 and fail at the same
step (both at the fetch, or both at the persist) send the same body, whatever
the quotes fetched and the errors met: the body is one of two fixed
messages. -/
theorem handleUSDBRL_error_body_fixed (env₁ env₂ : Server.Env) (now₁ now₂ : Nat)
    (db₁ db₂ : Store) (r₁ r₂ : Server.Response)
    (h₁ : r₁ ∈ (Server.handleUSDBRL env₁ now₁ db₁).responses)
    (h₂ : r₂ ∈ (Server.handleUSDBRL env₂ now₂ db₂).responses)
    (s₁ : r₁.status = 500) (s₂ : r₂.status = 500)
    (hstep : (Server.fetchStep env₁ now₁).result.toBool
      = (Server.fetchStep env₂ now₂).result.toBool) :
    r₁.body = r₂.body ∧
    (r₁.body = .raw "Erro ao obter cotação\n" ∨ r₁.body = .raw "Erro ao salvar cotação\n") := by
  unfold Server.fetchStep at hstep
  unfold Server.handleUSDBRL at h₁ h₂
  cases hf₁ : (Server.BuscaCotacao (WithTimeout now₁ (200 * Millisecond)) now₁ env₁.upstream).result with
  | error e₁ =>
    cases hf₂ : (Server.BuscaCotacao (WithTimeout now₂ (200 * Millisecond)) now₂ env₂.upstream).result with
    | error e₂ =>
      simp only [hf₁, hf₂, List.mem_singleton] at h₁ h₂
      subst h₁ h₂
      exact ⟨rfl, Or.inl rfl⟩
    | ok c₂ => simp [hf₁, hf₂, Except.toBool] at hstep
  | ok c₁ =>
    cases hf₂ : (Server.BuscaCotacao (WithTimeout now₂ (200 * Millisecond)) now₂ env₂.upstream).result with
    | error e₂ => simp [hf₁, hf₂, Except.toBool] at hstep
    | ok c₂ =>
      simp only [hf₁, hf₂] at h₁ h₂
      split at h₁
      · split at h₂
        · simp only [List.mem_singleton] at h₁ h₂
          subst h₁ h₂
          exact ⟨rfl, Or.inr rfl⟩
        · simp only [List.mem_singleton] at h₂
          subst h₂
          simp [StatusOK] at s₂
      · simp only [List.mem_singleton] at h₁
        subst h₁
        simp [StatusOK] at s₁

/-- C3, at two requests that fetch different quotes and fail in the persist step
with different errors: both send the same fixed message. -/
theorem handleUSDBRL_error_body_fixed_witness :
    (Server.fetchStep diskFullEnv 0).result = .ok { USDBRL := sampleQuote } ∧
    (Server.fetchStep slowSchemaEnv 7).result = .ok { USDBRL := otherQuote } ∧
    (Server.persistStep diskFullEnv 0 none { USDBRL := sampleQuote }).err
      = some (.sql "database or disk is full") ∧
    (Server.persistStep slowSchemaEnv 7 none { USDBRL := otherQuote }).err
      = some .deadlineExceeded ∧
    (Server.handleUSDBRL diskFullEnv 0 none).responses
      = [Server.httpError "Erro ao salvar cotação" 500] ∧
    (Server.handleUSDBRL slowSchemaEnv 7 none).responses
      = [Server.httpError "Erro ao salvar cotação" 500] ∧
    ((Server.httpError "Erro ao salvar cotação" 500).body
        = (Server.httpError "Erro ao salvar cotação" 500).body ∧
     ((Server.httpError "Erro ao salvar cotação" 500).body = .raw "Erro ao obter cotação\n" ∨
      (Server.httpError "Erro ao salvar cotação" 500).body = .raw "Erro ao salvar cotação\n")) :=
  ⟨rfl, rfl, rfl, rfl, rfl, rfl,
   handleUSDBRL_error_body_fixed diskFullEnv slowSchemaEnv 0 7 none none
      (Server.httpError "Erro ao salvar cotação" 500)
      (Server.httpError "Erro ao salvar cotação" 500)
      (List.mem_singleton.mpr rfl) (List.mem_singleton.mpr rfl) rfl rfl rfl⟩

/-! ## Properties of the store -/

/-- The row cells an insert of a quote binds: each column gets the field of
the same name. -/
theorem bindColumns_insert (q : Quote) :
    bindColumns
      ["code", "codein", "name", "high", "low", "varBid", "pctChange", "bid", "ask",
       "timestamp", "create_date"]
      [q.Code, q.Codein, q.Name, q.High, q.Low, q.VarBid, q.PctChange, q.Bid, q.Ask,
       q.Timestamp, q.CreateDate]
    = some (quoteCells q) := by
  rfl

/-- The schema statement never fails and leaves the rows as they are. -/
theorem exec_createTable (db : Store) :
    ∃ t : Table, exec db Server.createTable = .ok (some t) ∧ t.rows = storeRows db ∧
      t.nextId = storeNextId db := by
  cases db with
  | none => exact ⟨{ seq := 0, rows := [] }, rfl, rfl, rfl⟩
  | some t => exact ⟨t, rfl, rfl, rfl⟩

/-- On a store that has the table, the insert appends the row of the quote. -/
theorem exec_insert (t : Table) (cotacao : CotacaoAPIResponse) :
    exec (some t) (Server.insert cotacao)
      = .ok (some { seq := t.nextId,
                    rows := t.rows ++ [{ id := t.nextId, cells := quoteCells cotacao.USDBRL }] }) := by
  simp only [exec, Server.insert, bindColumns_insert]

/-- A call of `ExecContext` that returns no error has run its statement to
the end. -/
theorem ExecContext_ok (ctx : Context) (now : Nat) (step : DBStep) (db : Store) (stmt : Stmt)
    (h : (ExecContext ctx now step db stmt).1 = none) :
    ∃ db1 : Store, exec db stmt = .ok db1 ∧
      ExecContext ctx now step db stmt = (none, db1, now + step.cost) := by
  unfold ExecContext at h ⊢
  by_cases h1 : ctx.deadline ≤ now
  · simp [h1] at h
  · by_cases h2 : ctx.deadline ≤ now + step.cost ∧ step.interrupts = true
    · simp [h1, h2] at h
    · simp only [h1, h2, if_false] at h ⊢
      cases hf : step.fault with
      | some detail => simp [hf] at h
      | none =>
        simp only [hf] at h ⊢
        cases he : exec db stmt with
        | error e => simp [he] at h
        | ok db1 => exact ⟨db1, rfl, rfl⟩

/-- A statement that ends before the deadline, on a database that reports no
fault, returns the result of the statement. -/
theorem ExecContext_in_time (ctx : Context) (now : Nat) (step : DBStep) (db db1 : Store)
    (stmt : Stmt) (hfault : step.fault = none) (htime : now + step.cost < ctx.deadline)
    (hexec : exec db stmt = .ok db1) :
    ExecContext ctx now step db stmt = (none, db1, now + step.cost) := by
  have h1 : ¬ ctx.deadline ≤ now := by omega
  have h2 : ¬ (ctx.deadline ≤ now + step.cost ∧ step.interrupts = true) := by
    intro h
    omega
  unfold ExecContext
  simp only [h1, h2, if_false, hfault, hexec]

/-- With no database fault, `PersistCotacao` succeeds when the opening and the
two statements together end before the one deadline of `ctx`. -/
theorem PersistCotacao_in_time (ctx : Context) (cotacao : CotacaoAPIResponse) (now : Nat)
    (env : DBEnv) (db : Store)
    (hopen : env.openFault = none) (hcreate : env.create.fault = none)
    (hinsert : env.insert.fault = none)
    (htime : now + env.openCost + env.create.cost + env.insert.cost < ctx.deadline) :
    (Server.PersistCotacao ctx cotacao now env db).err = none := by
  obtain ⟨t, ht, -, -⟩ := exec_createTable db
  have hc := ExecContext_in_time ctx (now + env.openCost) env.create db (some t)
    Server.createTable hcreate (by omega) ht
  have hi := ExecContext_in_time ctx (now + env.openCost + env.create.cost) env.insert (some t) _
    (Server.insert cotacao) hinsert htime (exec_insert t cotacao)
  unfold Server.PersistCotacao
  simp only [hopen, hc, hi]

/-- A successful `PersistCotacao` has sent the schema statement and one insert,
and the store holds the old rows followed by the row of the quote. -/
theorem PersistCotacao_ok (ctx : Context) (cotacao : CotacaoAPIResponse) (now : Nat)
    (env : DBEnv) (db : Store)
    (h : (Server.PersistCotacao ctx cotacao now env db).err = none) :
    (Server.PersistCotacao ctx cotacao now env db).stmts = [Server.createTable, Server.insert cotacao] ∧
    (Server.PersistCotacao ctx cotacao now env db).db
      = some { seq := storeNextId db,
               rows := storeRows db ++
                 [{ id := storeNextId db, cells := quoteCells cotacao.USDBRL }] } := by
  obtain ⟨t, ht, hrows, hid⟩ := exec_createTable db
  revert h
  unfold Server.PersistCotacao
  cases hO : env.openFault with
  | some detail => simp
  | none =>
    simp only
    cases hc1 : (ExecContext ctx (now + env.openCost) env.create db Server.createTable).1 with
    | some e =>
      rcases hc : ExecContext ctx (now + env.openCost) env.create db Server.createTable
        with ⟨e1, db1, t1⟩
      rw [hc] at hc1
      simp only at hc1
      subst hc1
      simp
    | none =>
      obtain ⟨db1, hdb1, hc⟩ := ExecContext_ok _ _ _ _ _ hc1
      rw [ht] at hdb1
      injection hdb1 with hdb1
      subst hdb1
      simp only [hc]
      cases hi1 : (ExecContext ctx (now + env.openCost + env.create.cost) env.insert (some t)
          (Server.insert cotacao)).1 with
      | some e =>
        rcases hi : ExecContext ctx (now + env.openCost + env.create.cost) env.insert (some t)
          (Server.insert cotacao) with ⟨e2, db2, t2⟩
        rw [hi] at hi1
        simp only at hi1
        subst hi1
        simp
      | none =>
        obtain ⟨db2, hdb2, hi⟩ := ExecContext_ok _ _ _ _ _ hi1
        rw [exec_insert] at hdb2
        injection hdb2 with hdb2
        subst hdb2
        simp [hi, hrows, hid]

/-- C4.  When the fetch and the persist step both succeed, the eleven members
of the 200 body are, name for name and value for value, the eleven cells of the
one row the insert appended, and the single `INSERT` statement binds exactly
those column names to those values: each column receives the field of the
quote that carries its name, and the body is the pair object itself, not
wrapped. -/
theorem handleUSDBRL_body_eq_inserted_row (env : Server.Env) (now : Nat) (db : Store)
    (cotacao : CotacaoAPIResponse)
    (hfetch : (Server.fetchStep env now).result = .ok cotacao)
    (hpersist : (Server.persistStep env now db cotacao).err = none) :
    ∃ row : Row,
      row.cells =
        [("code", cotacao.USDBRL.Code), ("codein", cotacao.USDBRL.Codein),
         ("name", cotacao.USDBRL.Name), ("high", cotacao.USDBRL.High),
         ("low", cotacao.USDBRL.Low), ("varBid", cotacao.USDBRL.VarBid),
         ("pctChange", cotacao.USDBRL.PctChange), ("bid", cotacao.USDBRL.Bid),
         ("ask", cotacao.USDBRL.Ask), ("timestamp", cotacao.USDBRL.Timestamp),
         ("create_date", cotacao.USDBRL.CreateDate)] ∧
      (Server.handleUSDBRL env now db).stmts =
        [Server.createTable,
         .insertInto (row.cells.map Prod.fst) (row.cells.map Prod.snd)] ∧
      storeRows (Server.handleUSDBRL env now db).db = storeRows db ++ [row] ∧
      (Server.handleUSDBRL env now db).responses.map (fun r => r.status) = [200] ∧
      (Server.handleUSDBRL env now db).responses.map (fun r => r.body) =
        [.json (.object (row.cells.map (fun c => (c.1, JSON.string c.2))))] := by
  unfold Server.persistStep at hpersist
  unfold Server.fetchStep at hfetch hpersist
  obtain ⟨hstmts, hdb⟩ := PersistCotacao_ok _ _ _ _ _ hpersist
  refine ⟨{ id := storeNextId db, cells := quoteCells cotacao.USDBRL }, rfl, ?_, ?_, ?_, ?_⟩
  · simp only [Server.handleUSDBRL, hfetch, hpersist, hstmts]
    rfl
  · simp only [Server.handleUSDBRL, hfetch, hpersist, hdb]
    rfl
  · simp [Server.handleUSDBRL, hfetch, hpersist, StatusOK]
  · simp only [Server.handleUSDBRL, hfetch, hpersist]
    rfl

/-- C4, at a request served by a healthy upstream API and a fast database, on
a database file that has no table yet. -/
theorem handleUSDBRL_body_eq_inserted_row_witness :
    (Server.fetchStep sampleEnv 0).result = .ok { USDBRL := sampleQuote } ∧
    (Server.persistStep sampleEnv 0 none { USDBRL := sampleQuote }).err = none ∧
    ∃ row : Row,
      row.cells =
        [("code", "USD"), ("codein", "BRL"), ("name", "Dólar Americano/Real Brasileiro"),
         ("high", "5.10"), ("low", "4.90"), ("varBid", "0.01"), ("pctChange", "0.2"),
         ("bid", "5.00"), ("ask", "5.01"), ("timestamp", "1700000000"),
         ("create_date", "2023-11-14 12:00:00")] ∧
      (Server.handleUSDBRL sampleEnv 0 none).stmts =
        [Server.createTable,
         .insertInto (row.cells.map Prod.fst) (row.cells.map Prod.snd)] ∧
      storeRows (Server.handleUSDBRL sampleEnv 0 none).db = storeRows none ++ [row] ∧
      (Server.handleUSDBRL sampleEnv 0 none).responses.map (fun r => r.status) = [200] ∧
      (Server.handleUSDBRL sampleEnv 0 none).responses.map (fun r => r.body) =
        [.json (.object (row.cells.map (fun c => (c.1, JSON.string c.2))))] :=
  ⟨rfl, rfl, handleUSDBRL_body_eq_inserted_row sampleEnv 0 none { USDBRL := sampleQuote } rfl rfl⟩

/-- C7 as stated fails: with 6ms spent in the schema statement (less than
10ms), an insert that needs 6ms (less than a full 10ms budget) is cut off by
the deadline when the interrupt takes effect, because both statements run
under the one context.  The insert was attempted, the schema statement took
effect, no row was added, and the handler answers 500. -/
theorem PersistCotacao_insert_inherits_elapsed :
    6 * Millisecond < 10 * Millisecond ∧
    (Server.PersistCotacao (WithTimeout 0 (10 * Millisecond)) { USDBRL := sampleQuote } 0
        { create := { cost := 6 * Millisecond },
          insert := { cost := 6 * Millisecond, interrupts := true } }
        none)
      = { err := some .deadlineExceeded, db := some { seq := 0, rows := [] },
          now := 10 * Millisecond,
          stmts := [Server.createTable, Server.insert { USDBRL := sampleQuote }],
          log := [{ text := "Timeout ao inserir a cotação no banco de dados" }] } ∧
    (Server.handleUSDBRL
        { upstream := .response (50 * Millisecond) 200 sampleUpstreamBody,
          dbenv := { create := { cost := 6 * Millisecond },
                     insert := { cost := 6 * Millisecond, interrupts := true } } }
        0 none).responses.map (fun r => r.status) = [500] := by
  refine ⟨by decide, rfl, rfl⟩

/-- C7, amended.  One 10ms deadline, counted from the handler's creation of
`ctxDB`, covers the schema statement and the insert together: when opening the
database takes `e` and the schema statement `d`, with `e + d` under 10ms, the
insert has `10ms - (e + d)` left, and with no database fault the persist step
succeeds whenever the insert needs less than that. -/
theorem persistStep_shared_deadline (env : Server.Env) (now : Nat) (db : Store)
    (cotacao : CotacaoAPIResponse)
    (hopen : env.dbenv.openFault = none) (hcreate : env.dbenv.create.fault = none)
    (hinsert : env.dbenv.insert.fault = none)
    (hschema : env.dbenv.openCost + env.dbenv.create.cost < 10 * Millisecond)
    (hleft : env.dbenv.insert.cost
      < 10 * Millisecond - (env.dbenv.openCost + env.dbenv.create.cost)) :
    (Server.persistStep env now db cotacao).err = none := by
  unfold Server.persistStep
  apply PersistCotacao_in_time _ _ _ _ _ hopen hcreate hinsert
  have hd : (WithTimeout (Server.fetchStep env now).now (10 * Millisecond)).deadline
      = (Server.fetchStep env now).now + 10 * Millisecond := rfl
  rw [hd]
  omega

/-- C7 amended, at a schema statement of 6ms: an insert of 3ms fits in the 4ms
left and the persist step succeeds, whether or not the driver could interrupt
it. -/
theorem persistStep_shared_deadline_witness :
    3 * Millisecond < 10 * Millisecond - (0 + 6 * Millisecond) ∧
    (Server.persistStep
        { upstream := .response (50 * Millisecond) 200 sampleUpstreamBody,
          dbenv := { create := { cost := 6 * Millisecond },
                     insert := { cost := 3 * Millisecond } } }
        0 none { USDBRL := sampleQuote }).err = none :=
  ⟨by decide,
   persistStep_shared_deadline
    { upstream := .response (50 * Millisecond) 200 sampleUpstreamBody,
      dbenv := { create := { cost := 6 * Millisecond },
                 insert := { cost := 3 * Millisecond } } }
    0 none { USDBRL := sampleQuote } rfl rfl rfl (by decide) (by decide)⟩

/-- The interrupt is a race the statement can win: a 15ms insert that the
driver does not manage to interrupt returns nil 17ms after the context was
created, and its row is stored. -/
theorem PersistCotacao_late_insert_not_interrupted :
    Server.PersistCotacao (WithTimeout 0 (10 * Millisecond)) { USDBRL := sampleQuote } 0
        { create := { cost := 2 * Millisecond },
          insert := { cost := 15 * Millisecond, interrupts := false } }
        none
      = { err := none,
          db := some { seq := 1, rows := [{ id := 1, cells := quoteCells sampleQuote }] },
          now := 17 * Millisecond,
          stmts := [Server.createTable, Server.insert { USDBRL := sampleQuote }],
          log := [] } := by
  rfl

/-- C9.  Two calls of `PersistCotacao` in sequence, on any store (table absent
or present) and with any two quotes, both succeed when no deadline expires and
the database reports no fault, and the table then holds the rows it had, in
order, followed by one row for the first quote and one for the second. -/
theorem PersistCotacao_twice_appends (db : Store) (q₁ q₂ : CotacaoAPIResponse)
    (ctx₁ ctx₂ : Context) (now₁ now₂ : Nat) (env₁ env₂ : DBEnv)
    (hfault₁ : env₁.openFault = none ∧ env₁.create.fault = none ∧ env₁.insert.fault = none)
    (hfault₂ : env₂.openFault = none ∧ env₂.create.fault = none ∧ env₂.insert.fault = none)
    (htime₁ : now₁ + env₁.openCost + env₁.create.cost + env₁.insert.cost < ctx₁.deadline)
    (htime₂ : now₂ + env₂.openCost + env₂.create.cost + env₂.insert.cost < ctx₂.deadline) :
    (Server.PersistCotacao ctx₁ q₁ now₁ env₁ db).err = none ∧
    (Server.PersistCotacao ctx₂ q₂ now₂ env₂
        (Server.PersistCotacao ctx₁ q₁ now₁ env₁ db).db).err = none ∧
    ∃ id₁ id₂ : Nat,
      storeRows (Server.PersistCotacao ctx₂ q₂ now₂ env₂
          (Server.PersistCotacao ctx₁ q₁ now₁ env₁ db).db).db
        = storeRows db ++
            [{ id := id₁, cells := quoteCells q₁.USDBRL },
             { id := id₂, cells := quoteCells q₂.USDBRL }] := by
  have h₁ := PersistCotacao_in_time ctx₁ q₁ now₁ env₁ db hfault₁.1 hfault₁.2.1
    hfault₁.2.2 htime₁
  have h₂ := PersistCotacao_in_time ctx₂ q₂ now₂ env₂
    (Server.PersistCotacao ctx₁ q₁ now₁ env₁ db).db hfault₂.1 hfault₂.2.1 hfault₂.2.2 htime₂
  refine ⟨h₁, h₂, ?_⟩
  have hdb₁ := (PersistCotacao_ok _ _ _ _ _ h₁).2
  have hdb₂ := (PersistCotacao_ok _ _ _ _ _ h₂).2
  rw [hdb₂, hdb₁]
  refine ⟨storeNextId db,
    storeNextId (some (Table.mk (storeNextId db)
      (storeRows db ++ [Row.mk (storeNextId db) (quoteCells q₁.USDBRL)]))), ?_⟩
  simp [storeRows]

/-- C9, at a database file without the table, two quotes and a database that
answers each statement in one millisecond. -/
theorem PersistCotacao_twice_appends_witness :
    storeRows (Server.PersistCotacao (WithTimeout 500 (10 * Millisecond))
        { USDBRL := otherQuote } 500 fastDB
        (Server.PersistCotacao (WithTimeout 0 (10 * Millisecond))
          { USDBRL := sampleQuote } 0 fastDB none).db).db
      = [{ id := 1, cells := quoteCells sampleQuote },
         { id := 2, cells := quoteCells otherQuote }] ∧
    ((Server.PersistCotacao (WithTimeout 0 (10 * Millisecond))
        { USDBRL := sampleQuote } 0 fastDB none).err = none ∧
     (Server.PersistCotacao (WithTimeout 500 (10 * Millisecond))
        { USDBRL := otherQuote } 500 fastDB
        (Server.PersistCotacao (WithTimeout 0 (10 * Millisecond))
          { USDBRL := sampleQuote } 0 fastDB none).db).err = none) :=
  ⟨rfl,
   (PersistCotacao_twice_appends none { USDBRL := sampleQuote } { USDBRL := otherQuote }
      (WithTimeout 0 (10 * Millisecond)) (WithTimeout 500 (10 * Millisecond)) 0 500
      fastDB fastDB ⟨rfl, rfl, rfl⟩ ⟨rfl, rfl, rfl⟩ (by decide) (by decide)).1,
   (PersistCotacao_twice_appends none { USDBRL := sampleQuote } { USDBRL := otherQuote }
      (WithTimeout 0 (10 * Millisecond)) (WithTimeout 500 (10 * Millisecond)) 0 500
      fastDB fastDB ⟨rfl, rfl, rfl⟩ ⟨rfl, rfl, rfl⟩ (by decide) (by decide)).2.1⟩

/-! ## Properties of decoding -/

/-- Assigning one field leaves the others as they are. -/
theorem Quote.get_set_ne (q : Quote) (t tag v : String) (h : t ≠ tag) :
    (q.set t v).get tag = q.get tag := by
  unfold Quote.set
  by_cases h1 : t = "code"
  · subst h1; rw [if_pos rfl]; unfold Quote.get; simp only [if_neg (Ne.symm h)]
  rw [if_neg h1]
  by_cases h2 : t = "codein"
  · subst h2; rw [if_pos rfl]; unfold Quote.get; simp only [if_neg (Ne.symm h)]
  rw [if_neg h2]
  by_cases h3 : t = "name"
  · subst h3; rw [if_pos rfl]; unfold Quote.get; simp only [if_neg (Ne.symm h)]
  rw [if_neg h3]
  by_cases h4 : t = "high"
  · subst h4; rw [if_pos rfl]; unfold Quote.get; simp only [if_neg (Ne.symm h)]
  rw [if_neg h4]
  by_cases h5 : t = "low"
  · subst h5; rw [if_pos rfl]; unfold Quote.get; simp only [if_neg (Ne.symm h)]
  rw [if_neg h5]
  by_cases h6 : t = "varBid"
  · subst h6; rw [if_pos rfl]; unfold Quote.get; simp only [if_neg (Ne.symm h)]
  rw [if_neg h6]
  by_cases h7 : t = "pctChange"
  · subst h7; rw [if_pos rfl]; unfold Quote.get; simp only [if_neg (Ne.symm h)]
  rw [if_neg h7]
  by_cases h8 : t = "bid"
  · subst h8; rw [if_pos rfl]; unfold Quote.get; simp only [if_neg (Ne.symm h)]
  rw [if_neg h8]
  by_cases h9 : t = "ask"
  · subst h9; rw [if_pos rfl]; unfold Quote.get; simp only [if_neg (Ne.symm h)]
  rw [if_neg h9]
  by_cases h10 : t = "timestamp"
  · subst h10; rw [if_pos rfl]; unfold Quote.get; simp only [if_neg (Ne.symm h)]
  rw [if_neg h10]
  by_cases h11 : t = "create_date"
  · subst h11; rw [if_pos rfl]; unfold Quote.get; simp only [if_neg (Ne.symm h)]
  rw [if_neg h11]

/-- Members that decode without an error leave the saved error as it was. -/
theorem decodeQuote_saved (members : List (String × JSON)) (st : Quote × Option GoError)
    (hok : members.all quoteMemberOk = true) : (decodeQuote members st).2 = st.2 := by
  induction members generalizing st with
  | nil => rfl
  | cons f rest ih =>
    simp only [List.all_cons, Bool.and_eq_true] at hok
    simp only [decodeQuote, List.foldl_cons] at ih ⊢
    rw [ih _ hok.2]
    have hf := hok.1
    unfold quoteMemberOk at hf
    unfold quoteMember
    split at hf <;> simp_all [storeString]

/-- A field no member names keeps its value through the decoding of the inner
object. -/
theorem decodeQuote_get (members : List (String × JSON)) (st : Quote × Option GoError)
    (tag : String) (hno : members.any (fun f => findField quoteTags f.1 == some tag) = false) :
    (decodeQuote members st).1.get tag = st.1.get tag := by
  induction members generalizing st with
  | nil => rfl
  | cons f rest ih =>
    simp only [List.any_cons, Bool.or_eq_false_iff] at hno
    simp only [decodeQuote, List.foldl_cons] at ih ⊢
    rw [ih _ hno.2]
    have hf := hno.1
    cases hfind : findField quoteTags f.1 with
    | none => simp only [quoteMember, hfind]
    | some t =>
      have hne : t ≠ tag := by
        intro heq
        simp [hfind, heq] at hf
      simp only [quoteMember, hfind]
      unfold storeString
      split
      · exact Quote.get_set_ne _ _ _ _ hne
      · rfl
      · rfl

/-- Outer members that decode without an error leave the saved error as it
was. -/
theorem envelope_saved (outer : List (String × JSON))
    (st : CotacaoAPIResponse × Option GoError)
    (hok : outer.all envelopeMemberOk = true) :
    (outer.foldl envelopeMember st).2 = st.2 := by
  induction outer generalizing st with
  | nil => rfl
  | cons m rest ih =>
    simp only [List.all_cons, Bool.and_eq_true] at hok
    simp only [List.foldl_cons]
    rw [ih _ hok.2]
    have hm := hok.1
    unfold envelopeMemberOk at hm
    unfold envelopeMember
    split at hm
    · simp_all
    · simp_all [decodeQuote_saved]
    · simp_all
    · simp at hm

/-- A field that no `USDBRL` object of the body names keeps its value through
the decoding of the outer object. -/
theorem envelope_get (outer : List (String × JSON))
    (st : CotacaoAPIResponse × Option GoError) (tag : String)
    (hno : outer.any (namesField tag) = false) :
    (outer.foldl envelopeMember st).1.USDBRL.get tag = st.1.USDBRL.get tag := by
  induction outer generalizing st with
  | nil => rfl
  | cons m rest ih =>
    simp only [List.any_cons, Bool.or_eq_false_iff] at hno
    simp only [List.foldl_cons]
    rw [ih _ hno.2]
    have hm := hno.1
    unfold namesField at hm
    unfold envelopeMember
    split at hm
    · rename_i hfind hval
      simp only [hfind, hval]
      exact decodeQuote_get _ _ tag hm
    · split
      · rfl
      · split
        · simp_all
        · rfl
        · rfl

/-- C6 as stated fails: the body `{}` is valid JSON and lacks the `USDBRL` key,
yet the server's `BuscaCotacao` returns no error, and the record it returns has
every field empty. -/
theorem BuscaCotacao_empty_object_is_a_quote :
    (Server.BuscaCotacao (WithTimeout 0 (200 * Millisecond)) 0
        (.response (50 * Millisecond) 200 (.json (.object [])))).result
      = .ok { USDBRL :=
          { Code := "", Codein := "", Name := "", High := "", Low := "", VarBid := "",
            PctChange := "", Bid := "", Ask := "", Timestamp := "", CreateDate := "" } } :=
  rfl

/-- C6, amended.  When the upstream answers in time with a JSON object in which
every `USDBRL` member is `null` or an object whose named fields are strings or
`null`, the server's `BuscaCotacao` returns a record and no error, however many
keys are missing; every field that no `USDBRL` object of the body names is
empty in that record.  In particular a body without the `USDBRL` key gives the
record with eleven empty fields. -/
theorem BuscaCotacao_missing_fields_empty (ctx : Context) (now latency status : Nat)
    (outer : List (String × JSON))
    (hin : now + latency < ctx.deadline)
    (hok : outer.all envelopeMemberOk = true) :
    ∃ c : CotacaoAPIResponse,
      (Server.BuscaCotacao ctx now (.response latency status (.json (.object outer)))).result
        = .ok c ∧
      ∀ tag : String, outer.any (namesField tag) = false → c.USDBRL.get tag = "" := by
  have hsaved := envelope_saved outer (CotacaoAPIResponse.zero, none) hok
  refine ⟨(outer.foldl envelopeMember (CotacaoAPIResponse.zero, none)).1, ?_, ?_⟩
  · simp only [Server.BuscaCotacao, Do, hin, if_true, decodeBody, unmarshal]
    generalize outer.foldl envelopeMember (CotacaoAPIResponse.zero, none) = r at hsaved
    obtain ⟨c, e⟩ := r
    simp only at hsaved
    subst hsaved
    rfl
  · intro tag hno
    rw [envelope_get outer _ tag hno]
    unfold CotacaoAPIResponse.zero Quote.zero Quote.get
    simp only [ite_self]

/-- C6 amended, at a body whose `USDBRL` object has only the keys `code` and
`bid`: the record is returned, and its `ask` field is empty. -/
theorem BuscaCotacao_missing_fields_empty_witness :
    (Server.BuscaCotacao (WithTimeout 0 (200 * Millisecond)) 0
        (.response (50 * Millisecond) 200
          (.json (.object [("USDBRL",
            .object [("code", .string "USD"), ("bid", .string "5.00")])])))).result
      = .ok { USDBRL :=
          { Code := "USD", Codein := "", Name := "", High := "", Low := "", VarBid := "",
            PctChange := "", Bid := "5.00", Ask := "", Timestamp := "", CreateDate := "" } } ∧
    ∃ c : CotacaoAPIResponse,
      (Server.BuscaCotacao (WithTimeout 0 (200 * Millisecond)) 0
        (.response (50 * Millisecond) 200
          (.json (.object [("USDBRL",
            .object [("code", .string "USD"), ("bid", .string "5.00")])])))).result
        = .ok c ∧
      ∀ tag : String,
        [("USDBRL", JSON.object [("code", .string "USD"), ("bid", .string "5.00")])].any
          (namesField tag) = false → c.USDBRL.get tag = "" :=
  ⟨rfl,
   BuscaCotacao_missing_fields_empty (WithTimeout 0 (200 * Millisecond)) 0
     (50 * Millisecond) 200
     [("USDBRL", .object [("code", .string "USD"), ("bid", .string "5.00")])]
     (by decide) rfl⟩

/-! ## Properties of the client -/

/-- C5, on the code.  The service answers 200 with the pair object itself
(here with `"bid":"5.00"`), as `handleUSDBRL` does for `sampleQuote`; the
client decodes that body into a struct that expects the pair under the key
`USDBRL`, finds no such key, and appends the line `Dólar: ` with an empty bid
instead of `Dólar: 5.00`. -/
theorem main_drops_bid_of_unwrapped_body :
    (Server.handleUSDBRL sampleEnv 0 none).responses.map (fun r => r.body)
      = [.json (.object
          [("code", .string "USD"), ("codein", .string "BRL"),
           ("name", .string "Dólar Americano/Real Brasileiro"), ("high", .string "5.10"),
           ("low", .string "4.90"), ("varBid", .string "0.01"), ("pctChange", .string "0.2"),
           ("bid", .string "5.00"), ("ask", .string "5.01"),
           ("timestamp", .string "1700000000"),
           ("create_date", .string "2023-11-14 12:00:00")])] ∧
    Client.main
        { service := .response (60 * Millisecond) 200 (.json (.object
          [("code", .string "USD"), ("codein", .string "BRL"),
           ("name", .string "Dólar Americano/Real Brasileiro"), ("high", .string "5.10"),
           ("low", .string "4.90"), ("varBid", .string "0.01"), ("pctChange", .string "0.2"),
           ("bid", .string "5.00"), ("ask", .string "5.01"),
           ("timestamp", .string "1700000000"),
           ("create_date", .string "2023-11-14 12:00:00")])) }
        0 none
      = { file := some "Dólar: \n",
          ops := [.openAppend "cotacao.txt", .write "Dólar: \n", .close],
          log := [{ text := "Cotação salva com sucesso no arquivo cotacao.txt" }],
          exitCode := 0 } ∧
    some "Dólar: \n" ≠ some (Client.conteudo "5.00") := by
  refine ⟨rfl, rfl, by decide⟩

/-- Whatever the quote, the client reads an empty bid from the body the service
sends for it: none of the eleven keys names the field `USDBRL`. -/
theorem main_appends_empty_bid (q : Quote) (now latency : Nat) (file : Option String)
    (hin : latency < 300 * Millisecond) :
    (Client.main { service := .response latency 200 (.json (marshalQuote q)) } now file).file
      = some (file.getD "" ++ "Dólar: \n") := by
  have hlt : now + latency < now + 300 * Millisecond := by omega
  have hfetch :
      (Client.BuscaCotacao (WithTimeout now (300 * Millisecond)) now
        (.response latency 200 (.json (marshalQuote q)))).result
        = .ok CotacaoAPIResponse.zero := by
    simp only [Client.BuscaCotacao, Do, WithTimeout, hlt, if_true]
    rfl
  simp only [Client.main, hfetch]
  rfl

/-- The client's decoder does read the bid when the pair comes wrapped under
`USDBRL`, the shape of the upstream API, and the line is then appended to what
the file held. -/
theorem main_appends_bid_of_wrapped_body :
    Client.main { service := .response (60 * Millisecond) 200 sampleUpstreamBody } 0
        (some "Dólar: 4.98\n")
      = { file := some "Dólar: 4.98\nDólar: 5.00\n",
          ops := [.openAppend "cotacao.txt", .write "Dólar: 5.00\n", .close],
          log := [{ text := "Cotação salva com sucesso no arquivo cotacao.txt" }],
          exitCode := 0 } := by
  decide

/-- C8.  When the client's `BuscaCotacao` fails, `main` makes no call on the
file system, the file is as it was (absent or with the same contents), and the
process exits with status 0. -/
theorem main_fetch_error_leaves_file (env : Client.Env) (now : Nat) (file : Option String)
    (err : GoError) (hfetch : (Client.fetchStep env now).result = .error err) :
    (Client.main env now file).file = file ∧
    (Client.main env now file).ops = [] ∧
    (Client.main env now file).exitCode = 0 := by
  unfold Client.fetchStep at hfetch
  simp [Client.main, hfetch]

/-- C8, at the four ways the fetch can fail: a service that answers after
350ms (the deadline is 300ms), an unreachable service, a 500 response, and a
200 response whose body is not JSON. -/
theorem main_fetch_error_leaves_file_witness :
    ((Client.main { service := .response (350 * Millisecond) 200 sampleUpstreamBody } 0
        (some "Dólar: 4.98\n")).file = some "Dólar: 4.98\n" ∧
     (Client.main { service := .response (350 * Millisecond) 200 sampleUpstreamBody } 0
        (some "Dólar: 4.98\n")).ops = [] ∧
     (Client.main { service := .response (350 * Millisecond) 200 sampleUpstreamBody } 0
        (some "Dólar: 4.98\n")).exitCode = 0) ∧
    (Client.main { service := .failure Millisecond "connection refused" } 0 none).file
      = none ∧
    (Client.main
        { service := .response (60 * Millisecond) 500 (.raw "Erro ao salvar cotação\n") }
        0 none).ops = [] ∧
    (Client.main { service := .response (60 * Millisecond) 200 (.raw "<html>") } 0
        none).ops = [] :=
  ⟨main_fetch_error_leaves_file
      { service := .response (350 * Millisecond) 200 sampleUpstreamBody } 0
      (some "Dólar: 4.98\n") .deadlineExceeded rfl,
   (main_fetch_error_leaves_file
      { service := .failure Millisecond "connection refused" } 0 none
      (.transport "connection refused") rfl).1,
   (main_fetch_error_leaves_file
      { service := .response (60 * Millisecond) 500 (.raw "Erro ao salvar cotação\n") } 0 none
      (.status 500) rfl).2.1,
   (main_fetch_error_leaves_file
      { service := .response (60 * Millisecond) 200 (.raw "<html>") } 0 none
      (.malformed "invalid character") rfl).2.1⟩

/-- C10.  The server's `BuscaCotacao` does not look at the status code: two
responses with the same body and latency give the same result whatever their
statuses, and whatever the upstream does the only errors are a transport
failure, the expired deadline and a body that fails to decode.  The client's
`BuscaCotacao` returns an error for every response whose status is not 200,
whatever its body. -/
theorem BuscaCotacao_status_code (ctx : Context) (now latency s₁ s₂ : Nat) (body : Body)
    (hstatus : s₂ ≠ 200) :
    Server.BuscaCotacao ctx now (.response latency s₁ body)
      = Server.BuscaCotacao ctx now (.response latency s₂ body) ∧
    (∀ (upstream : RoundTrip) (err : GoError),
      (Server.BuscaCotacao ctx now upstream).result = .error err →
        (∃ l d, upstream = .failure l d ∧ err = .transport d) ∨
        err = .deadlineExceeded ∨
        (∃ l s b, upstream = .response l s b ∧ decodeBody b = .error err)) ∧
    ∃ err : GoError,
      (Client.BuscaCotacao ctx now (.response latency s₂ body)).result = .error err := by
  refine ⟨?_, ?_, ?_⟩
  · unfold Server.BuscaCotacao Do
    by_cases hin : now + latency < ctx.deadline
    · simp only [hin, if_true]
    · simp only [hin, if_false]
  · intro upstream err h
    unfold Server.BuscaCotacao Do at h
    cases upstream with
    | failure l d =>
      by_cases hin : now + l < ctx.deadline
      · left
        simp only [hin, if_true] at h
        injection h with h
        exact ⟨l, d, rfl, h.symm⟩
      · right; left
        simp only [hin, if_false] at h
        injection h with h
        exact h.symm
    | response l s b =>
      by_cases hin : now + l < ctx.deadline
      · right; right
        simp only [hin, if_true] at h
        cases hd : decodeBody b with
        | error e =>
          simp only [hd] at h
          injection h with h
          exact ⟨l, s, b, rfl, by rw [hd, h]⟩
        | ok c => simp [hd] at h
      · right; left
        simp only [hin, if_false] at h
        injection h with h
        exact h.symm
  · unfold Client.BuscaCotacao Do
    by_cases hin : now + latency < ctx.deadline
    · exact ⟨.status s₂, by simp [hin, StatusOK, hstatus]⟩
    · exact ⟨.deadlineExceeded, by simp [hin]⟩

/-- C10, at the upstream body of `sampleQuote` sent with status 500: the server
decodes it as it does under status 200, the client refuses it. -/
theorem BuscaCotacao_status_code_witness :
    (Server.BuscaCotacao (WithTimeout 0 (200 * Millisecond)) 0
        (.response (50 * Millisecond) 500 sampleUpstreamBody)).result
      = .ok { USDBRL := sampleQuote } ∧
    (Client.BuscaCotacao (WithTimeout 0 (200 * Millisecond)) 0
        (.response (50 * Millisecond) 500 sampleUpstreamBody)).result
      = .error (.status 500) ∧
    Server.BuscaCotacao (WithTimeout 0 (200 * Millisecond)) 0
        (.response (50 * Millisecond) 200 sampleUpstreamBody)
      = Server.BuscaCotacao (WithTimeout 0 (200 * Millisecond)) 0
        (.response (50 * Millisecond) 500 sampleUpstreamBody) :=
  ⟨rfl, rfl,
   (BuscaCotacao_status_code (WithTimeout 0 (200 * Millisecond)) 0 (50 * Millisecond) 200 500
      sampleUpstreamBody (by decide)).1⟩
